import Mathlib

/-!
Verification of the mcp4meme server (`src/mcp_server.py`) against its
natural-language specification.

The development shallowly embeds the Python module: JSON values become the
`Json` inductive, Python dictionary/list/string primitives (`dict.get`,
`in`, subscripting, slicing, truthiness, `str`) become total Lean functions
over `Json`, and Python exceptions become the `PyResult` error monad.  The
`BitqueryClient.execute_query` method and the four tool handlers
(`get_trending_tokens`, `get_bonding_curve_progress`, `get_latest_trades`,
`get_token_migration_status`) are translated statement by statement; the
HTTP transport is abstracted as a `TransportOutcome` parameter carrying the
response (status, body text, and the JSON parse of the body) or the message
of a raised transport exception.

Two deliberate approximations, neither load-bearing for any theorem below:
exception message texts mimic CPython but are not guaranteed character for
character (the theorems only ever use them generically or at inputs where
the model fixes them), and equality of JSON leaves is structural (CPython
cross-type numeric equality such as `1 == True` is not modelled).
-/

/-- Values of the Python/JSON data model used by the server: `None`,
booleans, ints, floats (modelled exactly as rationals), strings, lists and
string-keyed dicts (as association lists, first binding wins). -/
inductive Json where
  | null : Json
  | bool : Bool → Json
  | int : Int → Json
  | float : Rat → Json
  | str : String → Json
  | arr : List Json → Json
  | obj : List (String × Json) → Json
deriving Repr

mutual

def decEqJson : (a b : Json) → Decidable (a = b)
  | .null, .null => isTrue rfl
  | .bool a, .bool b =>
    match decEq a b with
    | isTrue h => isTrue (h ▸ rfl)
    | isFalse h => isFalse (fun hh => h (Json.bool.inj hh))
  | .int a, .int b =>
    match decEq a b with
    | isTrue h => isTrue (h ▸ rfl)
    | isFalse h => isFalse (fun hh => h (Json.int.inj hh))
  | .float a, .float b =>
    match decEq a b with
    | isTrue h => isTrue (h ▸ rfl)
    | isFalse h => isFalse (fun hh => h (Json.float.inj hh))
  | .str a, .str b =>
    match decEq a b with
    | isTrue h => isTrue (h ▸ rfl)
    | isFalse h => isFalse (fun hh => h (Json.str.inj hh))
  | .arr a, .arr b =>
    match decEqJsonList a b with
    | isTrue h => isTrue (h ▸ rfl)
    | isFalse h => isFalse (fun hh => h (Json.arr.inj hh))
  | .obj a, .obj b =>
    match decEqJsonFields a b with
    | isTrue h => isTrue (h ▸ rfl)
    | isFalse h => isFalse (fun hh => h (Json.obj.inj hh))
  | .null, .bool _ => isFalse (fun h => nomatch h)
  | .null, .int _ => isFalse (fun h => nomatch h)
  | .null, .float _ => isFalse (fun h => nomatch h)
  | .null, .str _ => isFalse (fun h => nomatch h)
  | .null, .arr _ => isFalse (fun h => nomatch h)
  | .null, .obj _ => isFalse (fun h => nomatch h)
  | .bool _, .null => isFalse (fun h => nomatch h)
  | .bool _, .int _ => isFalse (fun h => nomatch h)
  | .bool _, .float _ => isFalse (fun h => nomatch h)
  | .bool _, .str _ => isFalse (fun h => nomatch h)
  | .bool _, .arr _ => isFalse (fun h => nomatch h)
  | .bool _, .obj _ => isFalse (fun h => nomatch h)
  | .int _, .null => isFalse (fun h => nomatch h)
  | .int _, .bool _ => isFalse (fun h => nomatch h)
  | .int _, .float _ => isFalse (fun h => nomatch h)
  | .int _, .str _ => isFalse (fun h => nomatch h)
  | .int _, .arr _ => isFalse (fun h => nomatch h)
  | .int _, .obj _ => isFalse (fun h => nomatch h)
  | .float _, .null => isFalse (fun h => nomatch h)
  | .float _, .bool _ => isFalse (fun h => nomatch h)
  | .float _, .int _ => isFalse (fun h => nomatch h)
  | .float _, .str _ => isFalse (fun h => nomatch h)
  | .float _, .arr _ => isFalse (fun h => nomatch h)
  | .float _, .obj _ => isFalse (fun h => nomatch h)
  | .str _, .null => isFalse (fun h => nomatch h)
  | .str _, .bool _ => isFalse (fun h => nomatch h)
  | .str _, .int _ => isFalse (fun h => nomatch h)
  | .str _, .float _ => isFalse (fun h => nomatch h)
  | .str _, .arr _ => isFalse (fun h => nomatch h)
  | .str _, .obj _ => isFalse (fun h => nomatch h)
  | .arr _, .null => isFalse (fun h => nomatch h)
  | .arr _, .bool _ => isFalse (fun h => nomatch h)
  | .arr _, .int _ => isFalse (fun h => nomatch h)
  | .arr _, .float _ => isFalse (fun h => nomatch h)
  | .arr _, .str _ => isFalse (fun h => nomatch h)
  | .arr _, .obj _ => isFalse (fun h => nomatch h)
  | .obj _, .null => isFalse (fun h => nomatch h)
  | .obj _, .bool _ => isFalse (fun h => nomatch h)
  | .obj _, .int _ => isFalse (fun h => nomatch h)
  | .obj _, .float _ => isFalse (fun h => nomatch h)
  | .obj _, .str _ => isFalse (fun h => nomatch h)
  | .obj _, .arr _ => isFalse (fun h => nomatch h)

def decEqJsonList : (a b : List Json) → Decidable (a = b)
  | [], [] => isTrue rfl
  | [], _ :: _ => isFalse (fun h => nomatch h)
  | _ :: _, [] => isFalse (fun h => nomatch h)
  | x :: xs, y :: ys =>
    match decEqJson x y, decEqJsonList xs ys with
    | isTrue h1, isTrue h2 => isTrue (h1 ▸ h2 ▸ rfl)
    | isFalse h1, _ => isFalse (fun hh => h1 (List.cons.inj hh).1)
    | _, isFalse h2 => isFalse (fun hh => h2 (List.cons.inj hh).2)

def decEqJsonFields : (a b : List (String × Json)) → Decidable (a = b)
  | [], [] => isTrue rfl
  | [], _ :: _ => isFalse (fun h => nomatch h)
  | _ :: _, [] => isFalse (fun h => nomatch h)
  | (k, v) :: xs, (k2, v2) :: ys =>
    match decEq k k2, decEqJson v v2, decEqJsonFields xs ys with
    | isTrue h1, isTrue h2, isTrue h3 => isTrue (h1 ▸ h2 ▸ h3 ▸ rfl)
    | isFalse h1, _, _ =>
      isFalse (fun hh => h1 (congrArg Prod.fst (List.cons.inj hh).1))
    | _, isFalse h2, _ =>
      isFalse (fun hh => h2 (congrArg Prod.snd (List.cons.inj hh).1))
    | _, _, isFalse h3 => isFalse (fun hh => h3 (List.cons.inj hh).2)

end

instance : DecidableEq Json := decEqJson

/-- Name of the Python type of a value, as it appears in CPython error
messages. -/
def Json.pyTypeName : Json → String
  | .null => "NoneType"
  | .bool _ => "bool"
  | .int _ => "int"
  | .float _ => "float"
  | .str _ => "str"
  | .arr _ => "list"
  | .obj _ => "dict"

/-- Result of a piece of Python code: it either produces a value or raises
an exception carrying the message `str(e)`. -/
inductive PyResult (α : Type) where
  | ok : α → PyResult α
  | exn : String → PyResult α
deriving Repr, DecidableEq

def PyResult.bind {α β : Type} : PyResult α → (α → PyResult β) → PyResult β
  | .ok a, f => f a
  | .exn m, _ => .exn m

instance : Monad PyResult where
  pure := PyResult.ok
  bind := PyResult.bind

@[simp] theorem PyResult.bind_ok {α β : Type} (a : α) (f : α → PyResult β) :
    PyResult.bind (.ok a) f = f a := rfl

@[simp] theorem PyResult.bind_exn {α β : Type} (m : String) (f : α → PyResult β) :
    PyResult.bind (.exn m) f = .exn m := rfl

@[simp] theorem PyResult.monad_bind_eq {α β : Type} (r : PyResult α) (f : α → PyResult β) :
    r >>= f = PyResult.bind r f := rfl

@[simp] theorem PyResult.pure_eq {α : Type} (a : α) : (pure a : PyResult α) = .ok a := rfl

/-- Lookup of a key in an association-list dict; the first binding wins,
like a Python dict (whose keys are unique anyway). -/
def jLookup (fields : List (String × Json)) (key : String) : Option Json :=
  (fields.find? (fun kv => kv.1 = key)).map Prod.snd

/-- Python `d.get(key, default)`.  Raises `AttributeError` when the
receiver is not a dict, exactly as `x.get(...)` does in the source when a
nested payload level has an unexpected type. -/
def pyGetD (j : Json) (key : String) (dflt : Json) : PyResult Json :=
  match j with
  | .obj fields => .ok ((jLookup fields key).getD dflt)
  | other =>
      .exn ("\x27" ++ other.pyTypeName ++ "\x27 object has no attribute \x27get\x27")

/-- Substring test used by Python `sub in s` on strings. -/
def strContainsSub (s pat : String) : Bool :=
  pat = "" || (s.splitOn pat).length != 1

/-- Python `key in j` for a string `key`: key containment on dicts,
element equality on lists (a non-string element never equals a string),
substring test on strings, `TypeError` otherwise. -/
def pyContains (j : Json) (key : String) : PyResult Bool :=
  match j with
  | .obj fields => .ok (fields.any (fun kv => kv.1 = key))
  | .arr elems => .ok (elems.any (fun e => e = Json.str key))
  | .str s => .ok (strContainsSub s key)
  | other =>
      .exn ("argument of type \x27" ++ other.pyTypeName ++ "\x27 is not iterable")

/-- Python `j[key]` for a string `key`. -/
def pySubscript (j : Json) (key : String) : PyResult Json :=
  match j with
  | .obj fields =>
    match jLookup fields key with
    | some v => .ok v
    | none => .exn ("\x27" ++ key ++ "\x27")
  | .arr _ => .exn "list indices must be integers or slices, not str"
  | .str _ => .exn "string indices must be integers"
  | other => .exn ("\x27" ++ other.pyTypeName ++ "\x27 object is not subscriptable")

/-- Python truthiness of a value (`bool(j)`). -/
def pyTruthy : Json → Bool
  | .null => false
  | .bool b => b
  | .int n => n ≠ 0
  | .float q => q ≠ 0
  | .str s => s ≠ ""
  | .arr l => l ≠ []
  | .obj f => f ≠ []

/-- Python iteration `for x in j`: list elements, characters of a string
(as one-character strings), keys of a dict; `TypeError` otherwise. -/
def pyIter : Json → PyResult (List Json)
  | .arr l => .ok l
  | .str s => .ok (s.data.map (fun c => Json.str (String.mk [c])))
  | .obj fields => .ok (fields.map (fun kv => Json.str kv.1))
  | other => .exn ("\x27" ++ other.pyTypeName ++ "\x27 object is not iterable")

/-- Python list slice `l[:n]` for an arbitrary integer `n`: a nonnegative
`n` takes the first `n` elements, a negative `n` drops the last `|n|`. -/
def pyTakePrefixOf {α : Type} (l : List α) (n : Int) : List α :=
  if 0 ≤ n then l.take n.toNat else l.take (l.length - n.natAbs)

/-- Python `j[:n]`: slicing is defined on lists and strings and raises a
`TypeError` on anything else (on dicts the slice object is unhashable). -/
def pySliceTake (j : Json) (n : Int) : PyResult Json :=
  match j with
  | .arr l => .ok (.arr (pyTakePrefixOf l n))
  | .str s => .ok (.str (String.mk (pyTakePrefixOf s.data n)))
  | .obj _ => .exn "unhashable type: \x27slice\x27"
  | other => .exn ("\x27" ++ other.pyTypeName ++ "\x27 object is not subscriptable")

/-- Python `j[0]` as used on the transfers list. -/
def pyIndexZero : Json → PyResult Json
  | .arr [] => .exn "list index out of range"
  | .arr (x :: _) => .ok x
  | .str s =>
    match s.data with
    | [] => .exn "string index out of range"
    | c :: _ => .ok (.str (String.mk [c]))
  | .obj _ => .exn "0"
  | other => .exn ("\x27" ++ other.pyTypeName ++ "\x27 object is not subscriptable")

mutual

/-- Python `repr` of a value.  Punctuation mimics CPython; only the scalar
cases are relied on by any theorem. -/
def pyRepr : Json → String
  | .null => "None"
  | .bool true => "True"
  | .bool false => "False"
  | .int n => toString n
  | .float q => toString q
  | .str s => "\x27" ++ s ++ "\x27"
  | .arr l => "[" ++ pyReprList l ++ "]"
  | .obj f => "\x7b" ++ pyReprFields f ++ "\x7d"

def pyReprList : List Json → String
  | [] => ""
  | [x] => pyRepr x
  | x :: xs => pyRepr x ++ ", " ++ pyReprList xs

def pyReprFields : List (String × Json) → String
  | [] => ""
  | [(k, v)] => "\x27" ++ k ++ "\x27: " ++ pyRepr v
  | (k, v) :: xs => "\x27" ++ k ++ "\x27: " ++ pyRepr v ++ ", " ++ pyReprFields xs

end

/-- Python `str(j)`: identity on strings, `repr` otherwise. -/
def pyStr (j : Json) : String :=
  match j with
  | .str s => s
  | other => pyRepr other

/-- Membership of an `error` key, the discriminator every handler branches
on (`if "error" in result`); false on non-dicts. -/
def hasErrorKey (j : Json) : Bool :=
  match j with
  | .obj fields => fields.any (fun kv => kv.1 = "error")
  | _ => false

/-- Field access on a dict-shaped record, for stating theorems about the
returned records. -/
def jGet (j : Json) (key : String) : Option Json :=
  match j with
  | .obj fields => jLookup fields key
  | _ => none

/-! ## The transport and `BitqueryClient.execute_query` -/

/-- An HTTP response as the handler observes it: the status code, the body
text, and the result of parsing the body as JSON (`response.json()`);
`parsed = none` means the parse raises `json.JSONDecodeError`. -/
structure HttpResponse where
  status : Nat
  text : String
  parsed : Option Json

/-- Outcome of `client.post(...)`: either a response, or a raised
transport exception (connection failure, DNS error, timeout) carrying its
message. -/
inductive TransportOutcome where
  | success : HttpResponse → TransportOutcome
  | raises : String → TransportOutcome

/-- Whitespace set of Python `str.strip()` with no argument. -/
def isSpaceChar (c : Char) : Bool :=
  c = ' ' || c = '\t' || c = '\n' || c = '\x0d' || c = '\x0b' || c = '\x0c'

/-- Python `s.strip()`: drop leading and trailing whitespace. -/
def pyStrip (s : String) : String :=
  String.mk (((s.data.dropWhile isSpaceChar).reverse.dropWhile isSpaceChar).reverse)

/-- Error envelope dict constructed by `execute_query` on every failure
path. -/
def errEnvelope (msg : String) : Json := .obj [("error", .str msg)]

/-- Body of the outer `try` of `execute_query` (src/mcp_server.py lines
39-55).  The source handles a JSON parse failure with an
`except json.JSONDecodeError` clause, but the module never imports `json`;
evaluating the unimported name in the except clause raises
`NameError: name \x27json\x27 is not defined`, which escapes the inner
`try` (so the "Invalid JSON response" branch is unreachable) and is caught
by the outer handler. -/
def requestTry (outcome : TransportOutcome) : PyResult Json :=
  match outcome with
  | .raises msg => .exn msg
  | .success r =>
    if r.status ≠ 200 then
      .ok (errEnvelope ("HTTP " ++ toString r.status ++ ": " ++ r.text))
    else if pyStrip r.text = "" then
      .ok (errEnvelope "Empty response from API")
    else
      match r.parsed with
      | some j => .ok j
      | none => .exn "name \x27json\x27 is not defined"

/-- Translation of `BitqueryClient.execute_query` (src/mcp_server.py lines
29-58).  The module-level `BITQUERY_API_KEY` is passed explicitly; the
credential check precedes the request, and the outer `except Exception`
converts any raised exception into a `Request failed` envelope. -/
def execute_query (apiKey : String) (outcome : TransportOutcome) : PyResult Json :=
  if apiKey = "" then .ok (errEnvelope "BITQUERY_API_KEY not provided")
  else
    match requestTry outcome with
    | .ok j => .ok j
    | .exn msg => .ok (errEnvelope ("Request failed: " ++ msg))

/-! ## `get_trending_tokens` (src/mcp_server.py lines 67-174) -/

/-- Per-row mapping of the trending-tokens loop body (lines 147-161);
`i` is the 0-based `enumerate` index, so `rank = i + 1`. -/
def trendingRow (i : Nat) (trade : Json) : PyResult Json := do
  let tradeField ← pyGetD trade "Trade" (.obj [])
  let token_info ← pyGetD tradeField "Currency" (.obj [])
  let trade_count ← pyGetD trade "trades_24hr" (.int 0)
  let volume_24hr ← pyGetD trade "volume_24hr" (.int 0)
  let addr ← pyGetD token_info "SmartContract" (.str "")
  let symbol ← pyGetD token_info "Symbol" (.str "")
  let name ← pyGetD token_info "Name" (.str "")
  pure (.obj
    [("rank", .int (Int.ofNat (i + 1))),
     ("token_address", addr),
     ("symbol", symbol),
     ("name", name),
     ("trade_count", trade_count),
     ("volume_24hr_usd", .str (pyStr volume_24hr))])

/-- Accumulation of the `for i, trade in enumerate(trades_data[:limit])`
loop, appending one summary per row. -/
def trendingLoop : Nat → List Json → PyResult (List Json)
  | _, [] => pure []
  | i, t :: ts => do
      let r ← trendingRow i t
      let rest ← trendingLoop (i + 1) ts
      pure (r :: rest)

/-- Descent `result.get("data", ...).get("EVM", ...).get("DEXTradeByTokens", [])`
of line 145, with empty-dict/empty-list defaults at every level. -/
def trendingTradesData (result : Json) : PyResult Json := do
  let d ← pyGetD result "data" (.obj [])
  let evm ← pyGetD d "EVM" (.obj [])
  pyGetD evm "DEXTradeByTokens" (.arr [])

/-- Body of the `try` of `get_trending_tokens` (lines 144-174): descend
`data.EVM.DEXTradeByTokens` with empty-dict/empty-list defaults, slice to
`limit`, map the rows, and build the success record. -/
def trendingTry (result : Json) (limit : Int) : PyResult Json := do
  let trades_data ← trendingTradesData result
  let sliced ← pySliceTake trades_data limit
  let rows ← pyIter sliced
  let tokens ← trendingLoop 0 rows
  pure (.obj
    [("trending_tokens", .arr tokens),
     ("total_found", .int (Int.ofNat tokens.length))])

/-- Normalization performed by `get_trending_tokens` on the value returned
by `execute_query` (lines 130-174): the error-envelope branch, then the
`try` with its catch-all converting a raised exception into the error
variant with the `Failed to parse API response: ` message head. -/
def get_trending_tokens_result (result : Json) (limit : Int) : PyResult Json := do
  let hasErr ← pyContains result "error"
  if hasErr then do
    let e ← pySubscript result "error"
    pure (.obj [("trending_tokens", .arr []), ("error", e)])
  else
    match trendingTry result limit with
    | .ok d => pure d
    | .exn msg =>
      pure (.obj
        [("trending_tokens", .arr []),
         ("error", .str ("Failed to parse API response: " ++ msg))])

/-- The full `get_trending_tokens` tool: one `execute_query` call followed
by normalization.  The `ctx` logging sink of the source is omitted (pure
logging) and the query text and computed time window only feed the
transport, which is abstracted by `outcome`. -/
def get_trending_tokens (apiKey : String) (outcome : TransportOutcome)
    (limit : Int) : PyResult Json := do
  let result ← execute_query apiKey outcome
  get_trending_tokens_result result limit

/-! ## `get_bonding_curve_progress` (src/mcp_server.py lines 177-271) -/

/-- Placeholder progress constant of the source (line 246): `75.5`, not
computed from reserve data. -/
def mock_progress : Rat := 151 / 2

/-- Conditional-expression chain of line 248 mapping a percentage to a
status string. -/
def bondingStatusOf (p : Rat) : String :=
  if p < 50 then "early"
  else if p < 90 then "active"
  else if p < 95 then "approaching_graduation"
  else "graduated"

/-- Descent `result.get("data", ...).get("EVM", ...).get("Transfers", [])`
of line 234. -/
def bondingTransfers (result : Json) : PyResult Json := do
  let d ← pyGetD result "data" (.obj [])
  let evm ← pyGetD d "EVM" (.obj [])
  pyGetD evm "Transfers" (.arr [])

/-- Body of the `try` of `get_bonding_curve_progress` (lines 233-261). -/
def bondingTry (result : Json) (token_address : String) : PyResult Json := do
  let transfers_data ← bondingTransfers result
  if pyTruthy transfers_data = false then
    pure (.obj
      [("token_address", .str token_address),
       ("progress_percentage", .int 0),
       ("status", .str "early"),
       ("message", .str "No transfers to Four.meme contract found")])
  else do
    let status := bondingStatusOf mock_progress
    let transfer_info ← pyIndexZero transfers_data
    let transferField ← pyGetD transfer_info "Transfer" (.obj [])
    let token_info ← pyGetD transferField "Currency" (.obj [])
    let symbol ← pyGetD token_info "Symbol" (.str "")
    let name ← pyGetD token_info "Name" (.str "")
    let blk ← pyGetD transfer_info "Block" (.obj [])
    let last_activity ← pyGetD blk "Time" (.str "")
    pure (.obj
      [("token_address", .str token_address),
       ("symbol", symbol),
       ("name", name),
       ("progress_percentage", .float mock_progress),
       ("status", .str status),
       ("graduation_threshold", .float 95),
       ("last_activity", last_activity)])

/-- Normalization performed by `get_bonding_curve_progress` on the value
returned by `execute_query` (lines 225-271). -/
def get_bonding_curve_progress_result (result : Json)
    (token_address : String) : PyResult Json := do
  let hasErr ← pyContains result "error"
  if hasErr then do
    let e ← pySubscript result "error"
    pure (.obj
      [("token_address", .str token_address),
       ("progress_percentage", .int 0),
       ("status", .str "unknown"),
       ("error", e)])
  else
    match bondingTry result token_address with
    | .ok d => pure d
    | .exn msg =>
      pure (.obj
        [("token_address", .str token_address),
         ("progress_percentage", .int 0),
         ("status", .str "unknown"),
         ("error", .str ("Failed to parse response: " ++ msg))])

/-- The full `get_bonding_curve_progress` tool. -/
def get_bonding_curve_progress (apiKey : String) (outcome : TransportOutcome)
    (token_address : String) : PyResult Json := do
  let result ← execute_query apiKey outcome
  get_bonding_curve_progress_result result token_address

/-! ## `get_latest_trades` (src/mcp_server.py lines 274-385) -/

/-- Per-row mapping of the latest-trades loop body (lines 354-370). -/
def tradeRow (trade : Json) : PyResult Json := do
  let trade_info ← pyGetD trade "Trade" (.obj [])
  let buy_info ← pyGetD trade_info "Buy" (.obj [])
  let sell_info ← pyGetD trade_info "Sell" (.obj [])
  let tx ← pyGetD trade "Transaction" (.obj [])
  let txHash ← pyGetD tx "Hash" (.str "")
  let blkTime ← pyGetD trade "Block" (.obj [])
  let time ← pyGetD blkTime "Time" (.str "")
  let blkNumber ← pyGetD trade "Block" (.obj [])
  let number ← pyGetD blkNumber "Number" (.int 0)
  let buyer ← pyGetD buy_info "Buyer" (.str "")
  let seller ← pyGetD sell_info "Seller" (.str "")
  let buyAmount ← pyGetD buy_info "Amount" (.int 0)
  let sellAmount ← pyGetD sell_info "Amount" (.int 0)
  let priceUsd ← pyGetD buy_info "AmountInUSD" (.int 0)
  let buyCur ← pyGetD buy_info "Currency" (.obj [])
  let buyTok ← pyGetD buyCur "Symbol" (.str "")
  let sellCur ← pyGetD sell_info "Currency" (.obj [])
  let sellTok ← pyGetD sellCur "Symbol" (.str "")
  pure (.obj
    [("transaction_hash", txHash),
     ("timestamp", time),
     ("block_number", number),
     ("buyer", buyer),
     ("seller", seller),
     ("buy_amount", .str (pyStr buyAmount)),
     ("sell_amount", .str (pyStr sellAmount)),
     ("price_usd", .str (pyStr priceUsd)),
     ("buy_token", buyTok),
     ("sell_token", sellTok)])

/-- Accumulation of the `for trade in trades_data` loop of
`get_latest_trades` (no slicing: the limit is applied upstream by the
query only). -/
def tradesLoop : List Json → PyResult (List Json)
  | [] => pure []
  | t :: ts => do
      let r ← tradeRow t
      let rest ← tradesLoop ts
      pure (r :: rest)

/-- Descent `result.get("data", ...).get("EVM", ...).get("DEXTrades", [])`
of line 351. -/
def latestTradesData (result : Json) : PyResult Json := do
  let d ← pyGetD result "data" (.obj [])
  let evm ← pyGetD d "EVM" (.obj [])
  pyGetD evm "DEXTrades" (.arr [])

/-- Body of the `try` of `get_latest_trades` (lines 350-376). -/
def tradesTry (result : Json) (token_address : String) : PyResult Json := do
  let trades_data ← latestTradesData result
  let rows ← pyIter trades_data
  let trades ← tradesLoop rows
  pure (.obj
    [("token_address", .str token_address),
     ("trades", .arr trades),
     ("total_trades", .int (Int.ofNat trades.length))])

/-- Normalization performed by `get_latest_trades` on the value returned
by `execute_query` (lines 343-385). -/
def get_latest_trades_result (result : Json) (token_address : String) :
    PyResult Json := do
  let hasErr ← pyContains result "error"
  if hasErr then do
    let e ← pySubscript result "error"
    pure (.obj
      [("token_address", .str token_address),
       ("trades", .arr []),
       ("error", e)])
  else
    match tradesTry result token_address with
    | .ok d => pure d
    | .exn msg =>
      pure (.obj
        [("token_address", .str token_address),
         ("trades", .arr []),
         ("error", .str ("Failed to parse response: " ++ msg))])

/-- The full `get_latest_trades` tool; `limit` only parameterizes the
upstream query, so it does not occur in the normalization. -/
def get_latest_trades (apiKey : String) (outcome : TransportOutcome)
    (token_address : String) (limit : Int) : PyResult Json := do
  let result ← execute_query apiKey outcome
  let _ := limit
  get_latest_trades_result result token_address

/-! ## `get_token_migration_status` (src/mcp_server.py lines 388-505) -/

/-- One `pair_info` dict of the migration loop (lines 478-483), with its
four fields in literal order.  Equality of pairs is structural, matching
Python dict equality on these fixed-key dicts. -/
structure DexPair where
  dex_name : Json
  dex_contract : Json
  buy_token : Json
  sell_token : Json
deriving Repr, DecidableEq

/-- Rendering of a `pair_info` back into the returned JSON record. -/
def DexPair.toJson (p : DexPair) : Json :=
  .obj
    [("dex_name", p.dex_name),
     ("dex_contract", p.dex_contract),
     ("buy_token", p.buy_token),
     ("sell_token", p.sell_token)]

/-- Body of one iteration of the migration loop (lines 471-486): update
the falsy-guarded `migration_timestamp`, build `pair_info`, and append it
unless already present (`if pair_info not in dex_pairs`). -/
def migrationStep (trade : Json) (ts : Json) (acc : List DexPair) :
    PyResult (Json × List DexPair) := do
  let trade_info ← pyGetD trade "Trade" (.obj [])
  let dex_info ← pyGetD trade_info "Dex" (.obj [])
  let ts2 ←
    if pyTruthy ts then pure ts
    else do
      let blk ← pyGetD trade "Block" (.obj [])
      pyGetD blk "Time" (.str "")
  let dn ← pyGetD dex_info "ProtocolName" (.str "")
  let dc ← pyGetD dex_info "SmartContract" (.str "")
  let buyField ← pyGetD trade_info "Buy" (.obj [])
  let buyCur ← pyGetD buyField "Currency" (.obj [])
  let bt ← pyGetD buyCur "Symbol" (.str "")
  let sellField ← pyGetD trade_info "Sell" (.obj [])
  let sellCur ← pyGetD sellField "Currency" (.obj [])
  let st ← pyGetD sellCur "Symbol" (.str "")
  let p : DexPair := ⟨dn, dc, bt, st⟩
  pure (ts2, if p ∈ acc then acc else acc ++ [p])

/-- The whole migration loop, threading the timestamp (initially `None`)
and the deduplicated pair list. -/
def migrationLoop : List Json → Json → List DexPair →
    PyResult (Json × List DexPair)
  | [], ts, acc => pure (ts, acc)
  | t :: rest, ts, acc => do
      let (ts2, acc2) ← migrationStep t ts acc
      migrationLoop rest ts2 acc2

/-- Descent `result.get("data", ...).get("EVM", ...).get("DEXTrades", [])`
of line 456. -/
def migrationTradesData (result : Json) : PyResult Json := do
  let d ← pyGetD result "data" (.obj [])
  let evm ← pyGetD d "EVM" (.obj [])
  pyGetD evm "DEXTrades" (.arr [])

/-- Body of the `try` of `get_token_migration_status` (lines 455-495). -/
def migrationTry (result : Json) (token_address : String) : PyResult Json := do
  let trades_data ← migrationTradesData result
  if pyTruthy trades_data = false then
    pure (.obj
      [("token_address", .str token_address),
       ("is_migrated", .bool false),
       ("status", .str "bonding_curve_only"),
       ("dex_pairs", .arr []),
       ("message", .str "Token still trading only on Four.meme bonding curve")])
  else do
    let rows ← pyIter trades_data
    let (ts, pairs) ← migrationLoop rows .null []
    pure (.obj
      [("token_address", .str token_address),
       ("is_migrated", .bool true),
       ("status", .str "migrated_to_dex"),
       ("migration_timestamp", ts),
       ("dex_pairs", .arr (pairs.map DexPair.toJson)),
       ("total_dex_pairs", .int (Int.ofNat pairs.length))])

/-- Normalization performed by `get_token_migration_status` on the value
returned by `execute_query` (lines 447-505). -/
def get_token_migration_status_result (result : Json)
    (token_address : String) : PyResult Json := do
  let hasErr ← pyContains result "error"
  if hasErr then do
    let e ← pySubscript result "error"
    pure (.obj
      [("token_address", .str token_address),
       ("is_migrated", .bool false),
       ("dex_pairs", .arr []),
       ("error", e)])
  else
    match migrationTry result token_address with
    | .ok d => pure d
    | .exn msg =>
      pure (.obj
        [("token_address", .str token_address),
         ("is_migrated", .bool false),
         ("dex_pairs", .arr []),
         ("error", .str ("Failed to parse response: " ++ msg))])

/-- The full `get_token_migration_status` tool. -/
def get_token_migration_status (apiKey : String) (outcome : TransportOutcome)
    (token_address : String) : PyResult Json := do
  let result ← execute_query apiKey outcome
  get_token_migration_status_result result token_address

/-! ## Total views of the row mappings, used to state theorems

These are not part of the program; they are exception-free reformulations
of the row mappings above, and the loop lemmas below prove that on
well-shaped rows the program computes exactly them. -/

/-- Exception-free `j.get(key, dflt)`: the default when the receiver is
not a dict. -/
def getJD (j : Json) (key : String) (dflt : Json) : Json :=
  match j with
  | .obj fields => (jLookup fields key).getD dflt
  | _ => dflt

/-- Test for a dict value. -/
def isObjJ : Json → Bool
  | .obj _ => true
  | _ => false

/-- Shape condition under which `trendingRow` cannot raise: the row is a
dict whose `Trade` member (when present) is a dict whose `Currency` member
(when present) is a dict. -/
def wfTrendingRow (t : Json) : Bool :=
  isObjJ t &&
    isObjJ (getJD t "Trade" (.obj [])) &&
    isObjJ (getJD (getJD t "Trade" (.obj [])) "Currency" (.obj []))

/-- Exception-free value of `trendingRow` on a well-shaped row. -/
def trendingRowPure (i : Nat) (t : Json) : Json :=
  let token_info := getJD (getJD t "Trade" (.obj [])) "Currency" (.obj [])
  .obj
    [("rank", .int (Int.ofNat (i + 1))),
     ("token_address", getJD token_info "SmartContract" (.str "")),
     ("symbol", getJD token_info "Symbol" (.str "")),
     ("name", getJD token_info "Name" (.str "")),
     ("trade_count", getJD t "trades_24hr" (.int 0)),
     ("volume_24hr_usd", .str (pyStr (getJD t "volume_24hr" (.int 0))))]

/-- Exception-free value of `trendingLoop` on well-shaped rows. -/
def trendingRowsPure : Nat → List Json → List Json
  | _, [] => []
  | i, t :: ts => trendingRowPure i t :: trendingRowsPure (i + 1) ts

/-- Shape condition under which `migrationStep` cannot raise. -/
def wfMigrationRow (t : Json) : Bool :=
  isObjJ t &&
    isObjJ (getJD t "Trade" (.obj [])) &&
    isObjJ (getJD (getJD t "Trade" (.obj [])) "Dex" (.obj [])) &&
    isObjJ (getJD (getJD t "Trade" (.obj [])) "Buy" (.obj [])) &&
    isObjJ (getJD (getJD (getJD t "Trade" (.obj [])) "Buy" (.obj [])) "Currency" (.obj [])) &&
    isObjJ (getJD (getJD t "Trade" (.obj [])) "Sell" (.obj [])) &&
    isObjJ (getJD (getJD (getJD t "Trade" (.obj [])) "Sell" (.obj [])) "Currency" (.obj [])) &&
    isObjJ (getJD t "Block" (.obj []))

/-- Exception-free `pair_info` of a well-shaped migration trade row. -/
def pairOfTrade (t : Json) : DexPair :=
  let trade_info := getJD t "Trade" (.obj [])
  let dex_info := getJD trade_info "Dex" (.obj [])
  { dex_name := getJD dex_info "ProtocolName" (.str "")
    dex_contract := getJD dex_info "SmartContract" (.str "")
    buy_token := getJD (getJD (getJD trade_info "Buy" (.obj [])) "Currency" (.obj [])) "Symbol" (.str "")
    sell_token := getJD (getJD (getJD trade_info "Sell" (.obj [])) "Currency" (.obj [])) "Symbol" (.str "") }

/-- Exception-free timestamp update of one migration loop iteration. -/
def tsStepPure (ts : Json) (t : Json) : Json :=
  if pyTruthy ts then ts else getJD (getJD t "Block" (.obj [])) "Time" (.str "")

/-- Accumulator-style deduplication as the migration loop performs it:
append each element unless already present. -/
def dedupAccum {α : Type} [DecidableEq α] (acc : List α) : List α → List α
  | [] => acc
  | x :: xs => dedupAccum (if x ∈ acc then acc else acc ++ [x]) xs

/-- Modelled from the spec: deduplication by structural equality keeping
the first occurrence of each element, in first-seen order (§3 and §4.2,
"Deduplicates dexPairs by full structural equality, preserving first-seen
order").  Stated independently of the code so the loop can be compared
against it. -/
def firstSeenDedup {α : Type} [DecidableEq α] : List α → List α
  | [] => []
  | x :: xs => x :: firstSeenDedup (xs.filter (fun y => decide (y ≠ x)))
termination_by l => l.length
decreasing_by
  simp only [List.length_cons]
  exact Nat.lt_succ_of_le (List.length_filter_le _ _)

/-- Modelled from the spec: the §3 `BondingCurveStatus` field list, with
the snake_case key spelling the records of the code use. -/
def bondingCurveSchemaFields : List String :=
  ["token_address", "symbol", "name", "progress_percentage", "status",
   "graduation_threshold", "last_activity"]

/-! ## Claims about `execute_query` -/

/-- C1: for every query input and every transport outcome (non-200 status,
empty body, unparseable JSON body, connection failure, timeout, missing
credential), `execute_query` returns a value to its caller — an object
carrying an `error` key on every failure path, and otherwise exactly the
decoded JSON body of a 200 response — and never raises: the result is
always `PyResult.ok`. -/
theorem execute_query_never_raises (apiKey : String) (outcome : TransportOutcome) :
    ∃ j : Json, execute_query apiKey outcome = .ok j ∧
      (hasErrorKey j = true ∨ ∃ r, outcome = .success r ∧ r.parsed = some j) := by
  unfold execute_query requestTry
  by_cases hk : apiKey = ""
  · refine ⟨errEnvelope "BITQUERY_API_KEY not provided", ?_, Or.inl rfl⟩
    simp [hk]
  · cases outcome with
    | raises m =>
        refine ⟨errEnvelope ("Request failed: " ++ m), ?_, Or.inl rfl⟩
        simp [hk]
    | success r =>
        by_cases hs : r.status ≠ 200
        · refine ⟨errEnvelope ("HTTP " ++ toString r.status ++ ": " ++ r.text),
            ?_, Or.inl rfl⟩
          simp [hk, hs]
        · by_cases he : pyStrip r.text = ""
          · refine ⟨errEnvelope "Empty response from API", ?_, Or.inl rfl⟩
            simp [hk, hs, he]
          · cases hp : r.parsed with
            | some j =>
                refine ⟨j, ?_, Or.inr ⟨r, rfl, hp⟩⟩
                simp [hk, hs, he, hp]
            | none =>
                refine ⟨errEnvelope
                    ("Request failed: " ++ "name \x27json\x27 is not defined"),
                  ?_, Or.inl rfl⟩
                simp [hk, hs, he, hp]

/-- C3 (code bug): on a 200 response whose non-empty body fails to parse
as JSON, the claimed `Invalid JSON response: ...` envelope is never
produced.  The `except json.JSONDecodeError` clause of line 54 evaluates
the name `json`, which the module never imports, so the handler itself
raises `NameError` and the outer handler produces the `Request failed`
envelope instead.  This theorem evaluates the model at such an input. -/
theorem execute_query_invalid_json_dead_branch :
    execute_query "key" (.success ⟨200, "not json", none⟩) =
      .ok (errEnvelope "Request failed: name \x27json\x27 is not defined") := by
  rfl

/-- C4: with no API key configured, `execute_query` returns the
`BITQUERY_API_KEY not provided` envelope without the result depending on
the transport at all (no request is sent), and each of the four operations
returns its error variant carrying that string. -/
theorem no_credential_fails_fast (o o2 : TransportOutcome) (addr : String) (limit : Int) :
    execute_query "" o = .ok (errEnvelope "BITQUERY_API_KEY not provided") ∧
    execute_query "" o = execute_query "" o2 ∧
    get_trending_tokens "" o limit =
      .ok (.obj [("trending_tokens", .arr []),
                 ("error", .str "BITQUERY_API_KEY not provided")]) ∧
    get_bonding_curve_progress "" o addr =
      .ok (.obj [("token_address", .str addr),
                 ("progress_percentage", .int 0),
                 ("status", .str "unknown"),
                 ("error", .str "BITQUERY_API_KEY not provided")]) ∧
    get_latest_trades "" o addr limit =
      .ok (.obj [("token_address", .str addr),
                 ("trades", .arr []),
                 ("error", .str "BITQUERY_API_KEY not provided")]) ∧
    get_token_migration_status "" o addr =
      .ok (.obj [("token_address", .str addr),
                 ("is_migrated", .bool false),
                 ("dex_pairs", .arr []),
                 ("error", .str "BITQUERY_API_KEY not provided")]) :=
  ⟨rfl, rfl, rfl, rfl, rfl, rfl⟩

/-! ## Fixed-schema and error-variant claims -/

/-- C2 counterexample: the claim that on failure every §3 schema field is
present with a default fails concretely.  On the upstream error envelope
`errEnvelope "boom"`, the bonding-curve operation returns only
`token_address`, `progress_percentage`, `status` and `error`; the §3
`BondingCurveStatus` field `symbol` is absent, not defaulted. -/
theorem bonding_error_variant_drops_schema_fields :
    get_bonding_curve_progress_result (errEnvelope "boom") "0xT" =
      .ok (.obj [("token_address", .str "0xT"),
                 ("progress_percentage", .int 0),
                 ("status", .str "unknown"),
                 ("error", .str "boom")]) ∧
    "symbol" ∈ bondingCurveSchemaFields ∧
    jGet (.obj [("token_address", .str "0xT"),
                ("progress_percentage", .int 0),
                ("status", .str "unknown"),
                ("error", .str "boom")]) "symbol" = none :=
  ⟨rfl, by decide, rfl⟩

/-- C2 (amended): on an upstream error envelope, each operation returns
exactly its failure-variant record — the operation's core typed fields
with their defaults plus the `error` string; the remaining §3 schema
fields (counts, `symbol`, `name`, `graduation_threshold`,
`last_activity`, migration `status`/timestamp) are absent rather than
defaulted. -/
theorem failure_variants_have_fixed_fields (msg addr : String) (limit : Int) :
    get_trending_tokens_result (errEnvelope msg) limit =
      .ok (.obj [("trending_tokens", .arr []), ("error", .str msg)]) ∧
    get_bonding_curve_progress_result (errEnvelope msg) addr =
      .ok (.obj [("token_address", .str addr),
                 ("progress_percentage", .int 0),
                 ("status", .str "unknown"),
                 ("error", .str msg)]) ∧
    get_latest_trades_result (errEnvelope msg) addr =
      .ok (.obj [("token_address", .str addr),
                 ("trades", .arr []),
                 ("error", .str msg)]) ∧
    get_token_migration_status_result (errEnvelope msg) addr =
      .ok (.obj [("token_address", .str addr),
                 ("is_migrated", .bool false),
                 ("dex_pairs", .arr []),
                 ("error", .str msg)]) :=
  ⟨rfl, rfl, rfl, rfl⟩

/-- C9: whenever the `try` body of a normalizer raises on a non-error
payload, the operation returns its error variant whose error string is the
caught message with the `Failed to parse response: ` head (for trending,
`Failed to parse API response: `), and the exception is not propagated:
the result is `PyResult.ok`. -/
theorem parse_exception_to_error_variant (result : Json) (limit : Int)
    (addr : String) (m1 m2 m3 m4 : String)
    (hnoerr : pyContains result "error" = .ok false)
    (h1 : trendingTry result limit = .exn m1)
    (h2 : bondingTry result addr = .exn m2)
    (h3 : tradesTry result addr = .exn m3)
    (h4 : migrationTry result addr = .exn m4) :
    get_trending_tokens_result result limit =
      .ok (.obj [("trending_tokens", .arr []),
                 ("error", .str ("Failed to parse API response: " ++ m1))]) ∧
    get_bonding_curve_progress_result result addr =
      .ok (.obj [("token_address", .str addr),
                 ("progress_percentage", .int 0),
                 ("status", .str "unknown"),
                 ("error", .str ("Failed to parse response: " ++ m2))]) ∧
    get_latest_trades_result result addr =
      .ok (.obj [("token_address", .str addr),
                 ("trades", .arr []),
                 ("error", .str ("Failed to parse response: " ++ m3))]) ∧
    get_token_migration_status_result result addr =
      .ok (.obj [("token_address", .str addr),
                 ("is_migrated", .bool false),
                 ("dex_pairs", .arr []),
                 ("error", .str ("Failed to parse response: " ++ m4))]) := by
  refine ⟨?_, ?_, ?_, ?_⟩ <;>
    simp [get_trending_tokens_result, get_bonding_curve_progress_result,
      get_latest_trades_result, get_token_migration_status_result,
      hnoerr, h1, h2, h3, h4]

/-- Shape-mismatch payload for the parse-exception witness: `data` is an
int, so the first nested `.get` raises `AttributeError`. -/
def rawShapeMismatch : Json := .obj [("data", .int 5)]

/-- Witness for the parse-exception theorem at a concrete raising
payload. -/
theorem parse_exception_to_error_variant_witness :
    (pyContains rawShapeMismatch "error" = .ok false ∧
     trendingTry rawShapeMismatch 10 =
       .exn "\x27int\x27 object has no attribute \x27get\x27" ∧
     bondingTry rawShapeMismatch "0xT" =
       .exn "\x27int\x27 object has no attribute \x27get\x27" ∧
     tradesTry rawShapeMismatch "0xT" =
       .exn "\x27int\x27 object has no attribute \x27get\x27" ∧
     migrationTry rawShapeMismatch "0xT" =
       .exn "\x27int\x27 object has no attribute \x27get\x27") ∧
    get_trending_tokens_result rawShapeMismatch 10 =
      .ok (.obj [("trending_tokens", .arr []),
                 ("error", .str ("Failed to parse API response: "
                   ++ "\x27int\x27 object has no attribute \x27get\x27"))]) :=
  ⟨⟨rfl, rfl, rfl, rfl, rfl⟩,
    (parse_exception_to_error_variant rawShapeMismatch 10 "0xT"
      "\x27int\x27 object has no attribute \x27get\x27"
      "\x27int\x27 object has no attribute \x27get\x27"
      "\x27int\x27 object has no attribute \x27get\x27"
      "\x27int\x27 object has no attribute \x27get\x27"
      rfl rfl rfl rfl rfl).1⟩

/-- C7: on a non-error payload whose `DEXTrades` list is empty, the
migration operation returns the `bonding_curve_only` record:
`is_migrated = false`, empty `dex_pairs`, and a `message` field with no
`error` field. -/
theorem migration_empty_trades (result : Json) (addr : String)
    (hnoerr : pyContains result "error" = .ok false)
    (hdesc : migrationTradesData result = .ok (.arr [])) :
    get_token_migration_status_result result addr =
      .ok (.obj [("token_address", .str addr),
                 ("is_migrated", .bool false),
                 ("status", .str "bonding_curve_only"),
                 ("dex_pairs", .arr []),
                 ("message",
                  .str "Token still trading only on Four.meme bonding curve")]) ∧
    jGet (.obj [("token_address", .str addr),
                ("is_migrated", .bool false),
                ("status", .str "bonding_curve_only"),
                ("dex_pairs", .arr []),
                ("message",
                 .str "Token still trading only on Four.meme bonding curve")])
      "error" = none := by
  refine ⟨?_, rfl⟩
  simp [get_token_migration_status_result, migrationTry, hnoerr, hdesc, pyTruthy]

/-- Concrete migration payload with zero trades, for the C7 witness. -/
def emptyMigrationPayload : Json :=
  .obj [("data", .obj [("EVM", .obj [("DEXTrades", .arr [])])])]

/-- Witness for the empty-trades migration theorem at a concrete
payload. -/
theorem migration_empty_trades_witness :
    (pyContains emptyMigrationPayload "error" = .ok false ∧
     migrationTradesData emptyMigrationPayload = .ok (.arr [])) ∧
    get_token_migration_status_result emptyMigrationPayload "0xT" =
      .ok (.obj [("token_address", .str "0xT"),
                 ("is_migrated", .bool false),
                 ("status", .str "bonding_curve_only"),
                 ("dex_pairs", .arr []),
                 ("message",
                  .str "Token still trading only on Four.meme bonding curve")]) :=
  ⟨⟨rfl, rfl⟩, (migration_empty_trades emptyMigrationPayload "0xT" rfl rfl).1⟩

/-- C8: on a non-error payload whose `Transfers` list is empty, the
bonding-curve operation returns the `early` record with
`progress_percentage = 0` and a `message` field, and no `error` field. -/
theorem bonding_empty_transfers (result : Json) (addr : String)
    (hnoerr : pyContains result "error" = .ok false)
    (hdesc : bondingTransfers result = .ok (.arr [])) :
    get_bonding_curve_progress_result result addr =
      .ok (.obj [("token_address", .str addr),
                 ("progress_percentage", .int 0),
                 ("status", .str "early"),
                 ("message", .str "No transfers to Four.meme contract found")]) ∧
    jGet (.obj [("token_address", .str addr),
                ("progress_percentage", .int 0),
                ("status", .str "early"),
                ("message", .str "No transfers to Four.meme contract found")])
      "error" = none := by
  refine ⟨?_, rfl⟩
  simp [get_bonding_curve_progress_result, bondingTry, hnoerr, hdesc, pyTruthy]

/-- Concrete bonding-curve payload with zero transfers, for the C8
witness. -/
def emptyTransfersPayload : Json :=
  .obj [("data", .obj [("EVM", .obj [("Transfers", .arr [])])])]

/-- Witness for the empty-transfers bonding-curve theorem at a concrete
payload. -/
theorem bonding_empty_transfers_witness :
    (pyContains emptyTransfersPayload "error" = .ok false ∧
     bondingTransfers emptyTransfersPayload = .ok (.arr [])) ∧
    get_bonding_curve_progress_result emptyTransfersPayload "0xT" =
      .ok (.obj [("token_address", .str "0xT"),
                 ("progress_percentage", .int 0),
                 ("status", .str "early"),
                 ("message", .str "No transfers to Four.meme contract found")]) :=
  ⟨⟨rfl, rfl⟩, (bonding_empty_transfers emptyTransfersPayload "0xT" rfl rfl).1⟩

/-! ## Count-field invariants (C10) -/

/-- Inversion: a non-raising run of the trending `try` body always
produces the success record, with `total_found` the length of the token
list. -/
theorem trendingTry_ok_elim (result : Json) (limit : Int) (d : Json)
    (h : trendingTry result limit = .ok d) :
    ∃ tokens : List Json,
      d = .obj [("trending_tokens", .arr tokens),
                ("total_found", .int (Int.ofNat tokens.length))] := by
  unfold trendingTry at h
  cases e1 : trendingTradesData result with
  | exn m => rw [e1] at h; exact nomatch h
  | ok td =>
    rw [e1] at h
    simp only [PyResult.monad_bind_eq, PyResult.bind_ok] at h
    cases e2 : pySliceTake td limit with
    | exn m => rw [e2] at h; exact nomatch h
    | ok s =>
      rw [e2] at h
      simp only [PyResult.bind_ok] at h
      cases e3 : pyIter s with
      | exn m => rw [e3] at h; exact nomatch h
      | ok rows =>
        rw [e3] at h
        simp only [PyResult.bind_ok] at h
        cases e4 : trendingLoop 0 rows with
        | exn m => rw [e4] at h; exact nomatch h
        | ok tokens =>
          rw [e4] at h
          simp only [PyResult.bind_ok, PyResult.pure_eq, PyResult.ok.injEq] at h
          exact ⟨tokens, h.symm⟩

/-- Inversion: a non-raising run of the latest-trades `try` body always
produces the success record, with `total_trades` the length of the trade
list. -/
theorem tradesTry_ok_elim (result : Json) (addr : String) (d : Json)
    (h : tradesTry result addr = .ok d) :
    ∃ trades : List Json,
      d = .obj [("token_address", .str addr),
                ("trades", .arr trades),
                ("total_trades", .int (Int.ofNat trades.length))] := by
  unfold tradesTry at h
  cases e1 : latestTradesData result with
  | exn m => rw [e1] at h; exact nomatch h
  | ok td =>
    rw [e1] at h
    simp only [PyResult.monad_bind_eq, PyResult.bind_ok] at h
    cases e2 : pyIter td with
    | exn m => rw [e2] at h; exact nomatch h
    | ok rows =>
      rw [e2] at h
      simp only [PyResult.bind_ok] at h
      cases e3 : tradesLoop rows with
      | exn m => rw [e3] at h; exact nomatch h
      | ok trades =>
        rw [e3] at h
        simp only [PyResult.bind_ok, PyResult.pure_eq, PyResult.ok.injEq] at h
        exact ⟨trades, h.symm⟩

/-- Inversion: a non-raising run of the migration `try` body produces
either the `bonding_curve_only` record or the migrated record whose
`total_dex_pairs` is the length of the rendered `dex_pairs` list. -/
theorem migrationTry_ok_elim (result : Json) (addr : String) (d : Json)
    (h : migrationTry result addr = .ok d) :
    d = .obj [("token_address", .str addr),
              ("is_migrated", .bool false),
              ("status", .str "bonding_curve_only"),
              ("dex_pairs", .arr []),
              ("message",
               .str "Token still trading only on Four.meme bonding curve")] ∨
    ∃ (ts : Json) (pairs : List DexPair),
      d = .obj [("token_address", .str addr),
                ("is_migrated", .bool true),
                ("status", .str "migrated_to_dex"),
                ("migration_timestamp", ts),
                ("dex_pairs", .arr (pairs.map DexPair.toJson)),
                ("total_dex_pairs", .int (Int.ofNat pairs.length))] := by
  unfold migrationTry at h
  cases e1 : migrationTradesData result with
  | exn m => rw [e1] at h; exact nomatch h
  | ok td =>
    rw [e1] at h
    simp only [PyResult.monad_bind_eq, PyResult.bind_ok] at h
    by_cases e2 : pyTruthy td = false
    · rw [if_pos e2] at h
      simp only [PyResult.pure_eq, PyResult.ok.injEq] at h
      exact Or.inl h.symm
    · rw [if_neg e2] at h
      cases e3 : pyIter td with
      | exn m => rw [e3] at h; exact nomatch h
      | ok rows =>
        rw [e3] at h
        simp only [PyResult.bind_ok] at h
        cases e4 : migrationLoop rows .null [] with
        | exn m => rw [e4] at h; exact nomatch h
        | ok p =>
          rw [e4] at h
          simp only [PyResult.bind_ok, PyResult.pure_eq, PyResult.ok.injEq] at h
          exact Or.inr ⟨p.1, p.2, h.symm⟩

/-- C10 counterexample: a non-error migration result without the
`total_dex_pairs` field.  On the zero-trades payload the returned record
is the `bonding_curve_only` variant, which has no `error` field, has
`dex_pairs = []`, and omits `total_dex_pairs` entirely, so it does not
carry `total_dex_pairs` equal to the length of `dex_pairs`. -/
theorem migration_count_field_absent :
    get_token_migration_status_result emptyMigrationPayload "0xT" =
      .ok (.obj [("token_address", .str "0xT"),
                 ("is_migrated", .bool false),
                 ("status", .str "bonding_curve_only"),
                 ("dex_pairs", .arr []),
                 ("message",
                  .str "Token still trading only on Four.meme bonding curve")]) ∧
    jGet (.obj [("token_address", .str "0xT"),
                ("is_migrated", .bool false),
                ("status", .str "bonding_curve_only"),
                ("dex_pairs", .arr []),
                ("message",
                 .str "Token still trading only on Four.meme bonding curve")])
      "error" = none ∧
    jGet (.obj [("token_address", .str "0xT"),
                ("is_migrated", .bool false),
                ("status", .str "bonding_curve_only"),
                ("dex_pairs", .arr []),
                ("message",
                 .str "Token still trading only on Four.meme bonding curve")])
      "total_dex_pairs" = none :=
  ⟨rfl, rfl, rfl⟩

/-- C10 (amended): in every non-error result, `get_trending_tokens`
carries `total_found` equal to the length of `trending_tokens` and
`get_latest_trades` carries `total_trades` equal to the length of
`trades`; `get_token_migration_status` carries `total_dex_pairs` equal to
the length of `dex_pairs` in its migrated variant, while its
`bonding_curve_only` variant omits the count and its `dex_pairs` is
empty. -/
theorem count_fields_match_list_lengths (result : Json) (limit : Int)
    (addr : String) (out1 out2 out3 : Json)
    (h1 : get_trending_tokens_result result limit = .ok out1)
    (e1 : jGet out1 "error" = none)
    (h2 : get_latest_trades_result result addr = .ok out2)
    (e2 : jGet out2 "error" = none)
    (h3 : get_token_migration_status_result result addr = .ok out3)
    (e3 : jGet out3 "error" = none) :
    (∃ l : List Json, jGet out1 "trending_tokens" = some (.arr l) ∧
      jGet out1 "total_found" = some (.int (Int.ofNat l.length))) ∧
    (∃ l : List Json, jGet out2 "trades" = some (.arr l) ∧
      jGet out2 "total_trades" = some (.int (Int.ofNat l.length))) ∧
    (∃ l : List Json, jGet out3 "dex_pairs" = some (.arr l) ∧
      (jGet out3 "total_dex_pairs" = some (.int (Int.ofNat l.length)) ∨
       (jGet out3 "total_dex_pairs" = none ∧
        jGet out3 "status" = some (.str "bonding_curve_only") ∧ l = []))) := by
  refine ⟨?_, ?_, ?_⟩
  · unfold get_trending_tokens_result at h1
    cases c1 : pyContains result "error" with
    | exn m => rw [c1] at h1; exact nomatch h1
    | ok hasErr =>
      rw [c1] at h1
      simp only [PyResult.monad_bind_eq, PyResult.bind_ok] at h1
      cases hasErr with
      | true =>
        simp only [if_true] at h1
        cases s1 : pySubscript result "error" with
        | exn m => rw [s1] at h1; exact nomatch h1
        | ok e =>
          rw [s1] at h1
          simp only [PyResult.bind_ok, PyResult.pure_eq, PyResult.ok.injEq] at h1
          rw [← h1] at e1
          simp [jGet, jLookup] at e1
      | false =>
        simp only [Bool.false_eq_true, if_false] at h1
        cases t1 : trendingTry result limit with
        | exn m =>
          rw [t1] at h1
          simp only [PyResult.pure_eq, PyResult.ok.injEq] at h1
          rw [← h1] at e1
          simp [jGet, jLookup] at e1
        | ok dd =>
          rw [t1] at h1
          simp only [PyResult.pure_eq, PyResult.ok.injEq] at h1
          obtain ⟨tokens, hd⟩ := trendingTry_ok_elim result limit dd t1
          subst h1
          subst hd
          exact ⟨tokens, rfl, rfl⟩
  · unfold get_latest_trades_result at h2
    cases c1 : pyContains result "error" with
    | exn m => rw [c1] at h2; exact nomatch h2
    | ok hasErr =>
      rw [c1] at h2
      simp only [PyResult.monad_bind_eq, PyResult.bind_ok] at h2
      cases hasErr with
      | true =>
        simp only [if_true] at h2
        cases s1 : pySubscript result "error" with
        | exn m => rw [s1] at h2; exact nomatch h2
        | ok e =>
          rw [s1] at h2
          simp only [PyResult.bind_ok, PyResult.pure_eq, PyResult.ok.injEq] at h2
          rw [← h2] at e2
          simp [jGet, jLookup] at e2
      | false =>
        simp only [Bool.false_eq_true, if_false] at h2
        cases t1 : tradesTry result addr with
        | exn m =>
          rw [t1] at h2
          simp only [PyResult.pure_eq, PyResult.ok.injEq] at h2
          rw [← h2] at e2
          simp [jGet, jLookup] at e2
        | ok dd =>
          rw [t1] at h2
          simp only [PyResult.pure_eq, PyResult.ok.injEq] at h2
          obtain ⟨trades, hd⟩ := tradesTry_ok_elim result addr dd t1
          subst h2
          subst hd
          exact ⟨trades, rfl, rfl⟩
  · unfold get_token_migration_status_result at h3
    cases c1 : pyContains result "error" with
    | exn m => rw [c1] at h3; exact nomatch h3
    | ok hasErr =>
      rw [c1] at h3
      simp only [PyResult.monad_bind_eq, PyResult.bind_ok] at h3
      cases hasErr with
      | true =>
        simp only [if_true] at h3
        cases s1 : pySubscript result "error" with
        | exn m => rw [s1] at h3; exact nomatch h3
        | ok e =>
          rw [s1] at h3
          simp only [PyResult.bind_ok, PyResult.pure_eq, PyResult.ok.injEq] at h3
          rw [← h3] at e3
          simp [jGet, jLookup] at e3
      | false =>
        simp only [Bool.false_eq_true, if_false] at h3
        cases t1 : migrationTry result addr with
        | exn m =>
          rw [t1] at h3
          simp only [PyResult.pure_eq, PyResult.ok.injEq] at h3
          rw [← h3] at e3
          simp [jGet, jLookup] at e3
        | ok dd =>
          rw [t1] at h3
          simp only [PyResult.pure_eq, PyResult.ok.injEq] at h3
          subst h3
          rcases migrationTry_ok_elim result addr dd t1 with hd | ⟨ts, pairs, hd⟩
          · subst hd
            exact ⟨[], rfl, Or.inr ⟨rfl, rfl, rfl⟩⟩
          · subst hd
            refine ⟨pairs.map DexPair.toJson, rfl, Or.inl ?_⟩
            simp [jGet, jLookup]

/-- Witness for the count-field theorem at the empty-dict payload, which
exercises the trending and trades success records and the migration
`bonding_curve_only` variant. -/
theorem count_fields_match_list_lengths_witness :
    (get_trending_tokens_result (.obj []) 10 =
       .ok (.obj [("trending_tokens", .arr []),
                  ("total_found", .int 0)]) ∧
     get_latest_trades_result (.obj []) "0xT" =
       .ok (.obj [("token_address", .str "0xT"),
                  ("trades", .arr []),
                  ("total_trades", .int 0)]) ∧
     get_token_migration_status_result (.obj []) "0xT" =
       .ok (.obj [("token_address", .str "0xT"),
                  ("is_migrated", .bool false),
                  ("status", .str "bonding_curve_only"),
                  ("dex_pairs", .arr []),
                  ("message",
                   .str "Token still trading only on Four.meme bonding curve")])) ∧
    ((∃ l : List Json,
        jGet (Json.obj [("trending_tokens", .arr []), ("total_found", .int 0)])
          "trending_tokens" = some (.arr l) ∧
        jGet (Json.obj [("trending_tokens", .arr []), ("total_found", .int 0)])
          "total_found" = some (.int (Int.ofNat l.length))) ∧
     (∃ l : List Json,
        jGet (Json.obj [("token_address", .str "0xT"), ("trades", .arr []),
                        ("total_trades", .int 0)]) "trades" = some (.arr l) ∧
        jGet (Json.obj [("token_address", .str "0xT"), ("trades", .arr []),
                        ("total_trades", .int 0)]) "total_trades" =
          some (.int (Int.ofNat l.length))) ∧
     (∃ l : List Json,
        jGet (Json.obj [("token_address", .str "0xT"),
                        ("is_migrated", .bool false),
                        ("status", .str "bonding_curve_only"),
                        ("dex_pairs", .arr []),
                        ("message",
                         .str "Token still trading only on Four.meme bonding curve")])
          "dex_pairs" = some (.arr l) ∧
        (jGet (Json.obj [("token_address", .str "0xT"),
                         ("is_migrated", .bool false),
                         ("status", .str "bonding_curve_only"),
                         ("dex_pairs", .arr []),
                         ("message",
                          .str "Token still trading only on Four.meme bonding curve")])
           "total_dex_pairs" = some (.int (Int.ofNat l.length)) ∨
         (jGet (Json.obj [("token_address", .str "0xT"),
                          ("is_migrated", .bool false),
                          ("status", .str "bonding_curve_only"),
                          ("dex_pairs", .arr []),
                          ("message",
                           .str "Token still trading only on Four.meme bonding curve")])
            "total_dex_pairs" = none ∧
          jGet (Json.obj [("token_address", .str "0xT"),
                          ("is_migrated", .bool false),
                          ("status", .str "bonding_curve_only"),
                          ("dex_pairs", .arr []),
                          ("message",
                           .str "Token still trading only on Four.meme bonding curve")])
            "status" = some (.str "bonding_curve_only") ∧ l = [])))) :=
  ⟨⟨rfl, rfl, rfl⟩,
    count_fields_match_list_lengths (.obj []) 10 "0xT"
      (.obj [("trending_tokens", .arr []), ("total_found", .int 0)])
      (.obj [("token_address", .str "0xT"), ("trades", .arr []),
             ("total_trades", .int 0)])
      (.obj [("token_address", .str "0xT"), ("is_migrated", .bool false),
             ("status", .str "bonding_curve_only"), ("dex_pairs", .arr []),
             ("message",
              .str "Token still trading only on Four.meme bonding curve")])
      rfl rfl rfl rfl rfl rfl⟩

/-! ## Trending truncation and ranks (C5) -/

/-- Reduction of `dict.get` on a dict receiver to the total lookup. -/
theorem pyGetD_obj (f : List (String × Json)) (k : String) (d : Json) :
    pyGetD (.obj f) k d = .ok (getJD (.obj f) k d) := rfl

/-- Elimination for `isObjJ`. -/
theorem isObjJ_elim (j : Json) (h : isObjJ j = true) : ∃ f, j = Json.obj f := by
  cases j <;> first
  | exact ⟨_, rfl⟩
  | simp [isObjJ] at h

/-- On a well-shaped row the trending row mapping cannot raise and
computes its total reformulation. -/
theorem trendingRow_ok (i : Nat) (t : Json) (h : wfTrendingRow t = true) :
    trendingRow i t = .ok (trendingRowPure i t) := by
  cases t with
  | obj f =>
    simp only [wfTrendingRow, Bool.and_eq_true] at h
    obtain ⟨⟨h1, h2⟩, h3⟩ := h
    obtain ⟨tf, hA⟩ := isObjJ_elim _ h2
    rw [hA] at h3
    obtain ⟨ti, hB⟩ := isObjJ_elim _ h3
    simp only [trendingRow, trendingRowPure, pyGetD_obj, hA, hB,
      PyResult.monad_bind_eq, PyResult.bind_ok, PyResult.pure_eq]
  | null => exact absurd h (by simp [wfTrendingRow, isObjJ])
  | bool b => exact absurd h (by simp [wfTrendingRow, isObjJ])
  | int n => exact absurd h (by simp [wfTrendingRow, isObjJ])
  | float q => exact absurd h (by simp [wfTrendingRow, isObjJ])
  | str s => exact absurd h (by simp [wfTrendingRow, isObjJ])
  | arr l => exact absurd h (by simp [wfTrendingRow, isObjJ])

/-- On well-shaped rows the trending loop computes its total
reformulation. -/
theorem trendingLoop_ok (rows : List Json) (i : Nat)
    (h : ∀ t ∈ rows, wfTrendingRow t = true) :
    trendingLoop i rows = .ok (trendingRowsPure i rows) := by
  induction rows generalizing i with
  | nil => rfl
  | cons t ts ih =>
    have ht : wfTrendingRow t = true := h t (by simp)
    have hts : ∀ x ∈ ts, wfTrendingRow x = true := fun x hx => h x (by simp [hx])
    simp [trendingLoop, trendingRow_ok i t ht, ih (i + 1) hts, trendingRowsPure]

/-- The total trending map preserves length. -/
theorem trendingRowsPure_length (i : Nat) (rows : List Json) :
    (trendingRowsPure i rows).length = rows.length := by
  induction rows generalizing i with
  | nil => rfl
  | cons t ts ih => simp [trendingRowsPure, ih]

/-- Positional description of the total trending map. -/
theorem trendingRowsPure_get (i : Nat) (rows : List Json) (j : Nat)
    (hj : j < (trendingRowsPure i rows).length) (hj2 : j < rows.length) :
    (trendingRowsPure i rows).get ⟨j, hj⟩ =
      trendingRowPure (i + j) (rows.get ⟨j, hj2⟩) := by
  induction rows generalizing i j with
  | nil => exact absurd hj2 (by simp)
  | cons t ts ih =>
    cases j with
    | zero => simp [trendingRowsPure]
    | succ j2 =>
      have hj2x : j2 < ts.length := by simpa using hj2
      have hjx : j2 < (trendingRowsPure (i + 1) ts).length := by
        rw [trendingRowsPure_length]; exact hj2x
      have := ih (i + 1) j2 hjx hj2x
      simp only [trendingRowsPure, List.get_cons_succ]
      rw [this]
      congr 1
      omega

/-- The rank field of a produced row is its 1-based output position. -/
theorem trendingRowPure_rank (i : Nat) (t : Json) :
    jGet (trendingRowPure i t) "rank" = some (.int (Int.ofNat (i + 1))) := rfl

/-- C5: on a well-formed trending payload with row list `rows` and a
nonnegative `limit`, the operation returns exactly
`min limit rows.length` token summaries, produced from the payload rows in
order, and `rank` is assigned `1, 2, ...` by output position. -/
theorem trending_truncation_and_ranks (result : Json) (limit : Int)
    (rows : List Json)
    (hnoerr : pyContains result "error" = .ok false)
    (hdesc : trendingTradesData result = .ok (.arr rows))
    (hlim : 0 ≤ limit)
    (hwf : ∀ t ∈ rows, wfTrendingRow t = true) :
    ∃ tokens : List Json,
      get_trending_tokens_result result limit =
        .ok (.obj [("trending_tokens", .arr tokens),
                   ("total_found", .int (Int.ofNat tokens.length))]) ∧
      tokens = trendingRowsPure 0 (rows.take limit.toNat) ∧
      tokens.length = min limit.toNat rows.length ∧
      ∀ (j : Nat) (hj : j < tokens.length) (hj2 : j < rows.length),
        jGet (tokens.get ⟨j, hj⟩) "rank" = some (.int (Int.ofNat (j + 1))) ∧
        tokens.get ⟨j, hj⟩ = trendingRowPure j (rows.get ⟨j, hj2⟩) := by
  have hwf2 : ∀ t ∈ rows.take limit.toNat, wfTrendingRow t = true :=
    fun t ht => hwf t (List.mem_of_mem_take ht)
  refine ⟨trendingRowsPure 0 (rows.take limit.toNat), ?_, rfl, ?_, ?_⟩
  · have htry : trendingTry result limit =
        .ok (.obj [("trending_tokens", .arr (trendingRowsPure 0 (rows.take limit.toNat))),
                   ("total_found",
                    .int (Int.ofNat (trendingRowsPure 0 (rows.take limit.toNat)).length))]) := by
      simp [trendingTry, hdesc, pySliceTake, pyTakePrefixOf, hlim, pyIter,
        trendingLoop_ok (rows.take limit.toNat) 0 hwf2]
    simp [get_trending_tokens_result, hnoerr, htry]
  · rw [trendingRowsPure_length, List.length_take]
  · intro j hj hj2
    have hjt : j < (rows.take limit.toNat).length := by
      have := hj
      rwa [trendingRowsPure_length] at this
    rw [trendingRowsPure_get 0 (rows.take limit.toNat) j hj hjt]
    have hget : (rows.take limit.toNat).get ⟨j, hjt⟩ = rows.get ⟨j, hj2⟩ := by
      simp [List.get_eq_getElem, List.getElem_take]
    rw [hget]
    constructor
    · simpa using trendingRowPure_rank (0 + j) (rows.get ⟨j, hj2⟩)
    · simp

/-- Concrete 15-row trending payload row for the C5 witness. -/
def sampleTrendingRow (k : Nat) : Json :=
  .obj [("Trade", .obj [("Currency",
           .obj [("SmartContract", .str (toString k)),
                 ("Symbol", .str "S"), ("Name", .str "N")])]),
        ("trades_24hr", .int (Int.ofNat k)),
        ("volume_24hr", .int 7)]

/-- The 15 rows of the C5 witness payload. -/
def sampleTrendingRows : List Json := (List.range 15).map sampleTrendingRow

/-- The C5 witness payload. -/
def sampleTrendingPayload : Json :=
  .obj [("data", .obj [("EVM",
           .obj [("DEXTradeByTokens", .arr sampleTrendingRows)])])]

/-- Witness for the trending theorem: a 15-row payload with `limit = 10`
satisfies the hypotheses, so exactly `min 10 15 = 10` summaries ranked by
position come back. -/
theorem trending_truncation_and_ranks_witness :
    (pyContains sampleTrendingPayload "error" = .ok false ∧
     trendingTradesData sampleTrendingPayload = .ok (.arr sampleTrendingRows) ∧
     (0 : Int) ≤ 10 ∧
     (∀ t ∈ sampleTrendingRows, wfTrendingRow t = true) ∧
     sampleTrendingRows.length = 15 ∧
     min (10 : Int).toNat sampleTrendingRows.length = 10) ∧
    (∃ tokens : List Json,
      get_trending_tokens_result sampleTrendingPayload 10 =
        .ok (.obj [("trending_tokens", .arr tokens),
                   ("total_found", .int (Int.ofNat tokens.length))]) ∧
      tokens = trendingRowsPure 0 (sampleTrendingRows.take (10 : Int).toNat) ∧
      tokens.length = min (10 : Int).toNat sampleTrendingRows.length ∧
      ∀ (j : Nat) (hj : j < tokens.length) (hj2 : j < sampleTrendingRows.length),
        jGet (tokens.get ⟨j, hj⟩) "rank" = some (.int (Int.ofNat (j + 1))) ∧
        tokens.get ⟨j, hj⟩ = trendingRowPure j (sampleTrendingRows.get ⟨j, hj2⟩)) :=
  ⟨⟨rfl, rfl, by decide, by decide, rfl, rfl⟩,
    trending_truncation_and_ranks sampleTrendingPayload 10 sampleTrendingRows
      rfl rfl (by decide) (by decide)⟩

/-! ## Migration deduplication (C6) -/

/-- On a well-shaped trade row the migration loop body cannot raise and
computes the total timestamp update plus the guarded append. -/
theorem migrationStep_ok (t : Json) (ts : Json) (acc : List DexPair)
    (h : wfMigrationRow t = true) :
    migrationStep t ts acc =
      .ok (tsStepPure ts t,
           if pairOfTrade t ∈ acc then acc else acc ++ [pairOfTrade t]) := by
  cases t with
  | obj f =>
    simp only [wfMigrationRow, Bool.and_eq_true] at h
    obtain ⟨⟨⟨⟨⟨⟨⟨h0, hA⟩, hB⟩, hC⟩, hD⟩, hE⟩, hF⟩, hG⟩ := h
    obtain ⟨tf, htf⟩ := isObjJ_elim _ hA
    rw [htf] at hB hC hD hE hF
    obtain ⟨dx, hdx⟩ := isObjJ_elim _ hB
    obtain ⟨bf, hbf⟩ := isObjJ_elim _ hC
    rw [hbf] at hD
    obtain ⟨bc, hbc⟩ := isObjJ_elim _ hD
    obtain ⟨sf, hsf⟩ := isObjJ_elim _ hE
    rw [hsf] at hF
    obtain ⟨sc, hsc⟩ := isObjJ_elim _ hF
    obtain ⟨bl, hbl⟩ := isObjJ_elim _ hG
    cases hts : pyTruthy ts with
    | true =>
      simp only [migrationStep, tsStepPure, pairOfTrade, pyGetD_obj, htf, hdx,
        hbf, hbc, hsf, hsc, hbl, hts, if_true, PyResult.monad_bind_eq,
        PyResult.bind_ok, PyResult.pure_eq]
    | false =>
      simp only [migrationStep, tsStepPure, pairOfTrade, pyGetD_obj, htf, hdx,
        hbf, hbc, hsf, hsc, hbl, hts, Bool.false_eq_true, if_false,
        PyResult.monad_bind_eq, PyResult.bind_ok, PyResult.pure_eq]
  | null => exact absurd h (by simp [wfMigrationRow, isObjJ])
  | bool b => exact absurd h (by simp [wfMigrationRow, isObjJ])
  | int n => exact absurd h (by simp [wfMigrationRow, isObjJ])
  | float q => exact absurd h (by simp [wfMigrationRow, isObjJ])
  | str s => exact absurd h (by simp [wfMigrationRow, isObjJ])
  | arr l => exact absurd h (by simp [wfMigrationRow, isObjJ])

/-- On well-shaped rows the migration loop computes the timestamp fold and
the accumulator-style deduplication of the mapped pairs. -/
theorem migrationLoop_ok (rows : List Json) (ts : Json) (acc : List DexPair)
    (h : ∀ t ∈ rows, wfMigrationRow t = true) :
    migrationLoop rows ts acc =
      .ok (rows.foldl tsStepPure ts, dedupAccum acc (rows.map pairOfTrade)) := by
  induction rows generalizing ts acc with
  | nil => rfl
  | cons t rest ih =>
    have ht : wfMigrationRow t = true := h t (by simp)
    have hrest : ∀ x ∈ rest, wfMigrationRow x = true := fun x hx => h x (by simp [hx])
    simp only [migrationLoop, PyResult.monad_bind_eq, migrationStep_ok t ts acc ht,
      PyResult.bind_ok]
    rw [ih (tsStepPure ts t) _ hrest]
    simp [dedupAccum, List.foldl]

/-- Unfolding equation of `firstSeenDedup` on `cons`. -/
theorem firstSeenDedup_cons {α : Type} [DecidableEq α] (x : α) (xs : List α) :
    firstSeenDedup (x :: xs) =
      x :: firstSeenDedup (xs.filter (fun y => decide (y ≠ x))) := by
  rw [firstSeenDedup]

/-- Unfolding equation of `firstSeenDedup` on `nil`. -/
theorem firstSeenDedup_nil {α : Type} [DecidableEq α] :
    firstSeenDedup ([] : List α) = [] := by
  rw [firstSeenDedup]

/-- Fuel-bounded membership characterization of `firstSeenDedup`. -/
theorem mem_firstSeenDedup_aux {α : Type} [DecidableEq α] :
    ∀ (n : Nat) (l : List α), l.length ≤ n → ∀ a : α,
      (a ∈ firstSeenDedup l ↔ a ∈ l)
  | _, [], _, a => by simp [firstSeenDedup_nil]
  | 0, x :: xs, hl, a => by simp at hl
  | n + 1, x :: xs, hl, a => by
    have hlen : (xs.filter (fun y => decide (y ≠ x))).length ≤ n :=
      le_trans (List.length_filter_le _ _) (by simpa using hl)
    rw [firstSeenDedup_cons]
    simp only [List.mem_cons, mem_firstSeenDedup_aux n _ hlen a,
      List.mem_filter, decide_eq_true_eq]
    by_cases hax : a = x <;> simp [hax]

/-- Membership in `firstSeenDedup` is membership in the input. -/
theorem mem_firstSeenDedup {α : Type} [DecidableEq α] (l : List α) (a : α) :
    a ∈ firstSeenDedup l ↔ a ∈ l :=
  mem_firstSeenDedup_aux l.length l le_rfl a

/-- Fuel-bounded proof that `firstSeenDedup` has no duplicates. -/
theorem firstSeenDedup_nodup_aux {α : Type} [DecidableEq α] :
    ∀ (n : Nat) (l : List α), l.length ≤ n → (firstSeenDedup l).Nodup
  | _, [], _ => by simp [firstSeenDedup_nil]
  | 0, x :: xs, hl => by simp at hl
  | n + 1, x :: xs, hl => by
    have hlen : (xs.filter (fun y => decide (y ≠ x))).length ≤ n :=
      le_trans (List.length_filter_le _ _) (by simpa using hl)
    rw [firstSeenDedup_cons]
    refine List.nodup_cons.mpr ⟨?_, firstSeenDedup_nodup_aux n _ hlen⟩
    intro hmem
    have hx := (mem_firstSeenDedup_aux n _ hlen x).mp hmem
    simp [List.mem_filter] at hx

/-- The spec-side first-seen deduplication never contains two equal
entries. -/
theorem firstSeenDedup_nodup {α : Type} [DecidableEq α] (l : List α) :
    (firstSeenDedup l).Nodup :=
  firstSeenDedup_nodup_aux l.length l le_rfl

/-- The accumulator-style deduplication of the loop refines the spec-side
first-seen deduplication. -/
theorem dedupAccum_append_firstSeenDedup {α : Type} [DecidableEq α]
    (l : List α) (acc : List α) :
    dedupAccum acc l =
      acc ++ firstSeenDedup (l.filter (fun x => decide (x ∉ acc))) := by
  induction l generalizing acc with
  | nil => simp [dedupAccum, firstSeenDedup_nil]
  | cons x xs ih =>
    by_cases hx : x ∈ acc
    · simp only [dedupAccum]
      rw [if_pos hx, ih, List.filter_cons]
      have : decide (x ∉ acc) = false := by simp [hx]
      rw [this]
      simp
    · simp only [dedupAccum]
      rw [if_neg hx, ih, List.filter_cons]
      have hdx : decide (x ∉ acc) = true := by simp [hx]
      rw [hdx]
      simp only [if_true]
      rw [firstSeenDedup_cons, List.append_assoc]
      have hfilters :
          xs.filter (fun y => decide (y ∉ acc ++ [x])) =
            (xs.filter (fun y => decide (y ∉ acc))).filter
              (fun y => decide (y ≠ x)) := by
        rw [List.filter_filter]
        apply List.filter_congr
        intro y _
        by_cases h1 : y ∈ acc <;> by_cases h2 : y = x <;> simp [h1, h2]
      rw [hfilters]
      rfl

/-- The loop deduplication started from the empty accumulator is exactly
the spec-side first-seen deduplication. -/
theorem dedupAccum_nil {α : Type} [DecidableEq α] (l : List α) :
    dedupAccum [] l = firstSeenDedup l := by
  rw [dedupAccum_append_firstSeenDedup]
  have : l.filter (fun x => decide (x ∉ ([] : List α))) = l := by
    apply List.filter_eq_self.mpr
    intro y _
    simp
  rw [this]
  rfl

/-- C6: on a well-formed migration payload with at least one
non-bonding-curve trade, the operation reports `is_migrated = true` and
`dex_pairs` is exactly the first-seen-order deduplication of the per-trade
pairs (structural equality on all four fields), which contains no
duplicate entries. -/
theorem migration_dedup_first_seen (result : Json) (addr : String)
    (rows : List Json)
    (hnoerr : pyContains result "error" = .ok false)
    (hdesc : migrationTradesData result = .ok (.arr rows))
    (hne : rows ≠ [])
    (hwf : ∀ t ∈ rows, wfMigrationRow t = true) :
    get_token_migration_status_result result addr =
      .ok (.obj [("token_address", .str addr),
                 ("is_migrated", .bool true),
                 ("status", .str "migrated_to_dex"),
                 ("migration_timestamp", rows.foldl tsStepPure .null),
                 ("dex_pairs",
                  .arr ((firstSeenDedup (rows.map pairOfTrade)).map DexPair.toJson)),
                 ("total_dex_pairs",
                  .int (Int.ofNat (firstSeenDedup (rows.map pairOfTrade)).length))]) ∧
    (firstSeenDedup (rows.map pairOfTrade)).Nodup := by
  have hloop := migrationLoop_ok rows .null [] hwf
  rw [dedupAccum_nil] at hloop
  have htry : migrationTry result addr =
      .ok (.obj [("token_address", .str addr),
                 ("is_migrated", .bool true),
                 ("status", .str "migrated_to_dex"),
                 ("migration_timestamp", rows.foldl tsStepPure .null),
                 ("dex_pairs",
                  .arr ((firstSeenDedup (rows.map pairOfTrade)).map DexPair.toJson)),
                 ("total_dex_pairs",
                  .int (Int.ofNat (firstSeenDedup (rows.map pairOfTrade)).length))]) := by
    simp [migrationTry, hdesc, pyTruthy, hne, pyIter, hloop]
  exact ⟨by simp [get_token_migration_status_result, hnoerr, htry],
    firstSeenDedup_nodup _⟩

/-- A concrete non-bonding-curve trade row, used twice in the C6 witness
payload so that deduplication is exercised. -/
def sampleMigrationTrade : Json :=
  .obj [("Trade",
         .obj [("Dex", .obj [("ProtocolName", .str "pancake"),
                             ("SmartContract", .str "0xD")]),
               ("Buy", .obj [("Currency", .obj [("Symbol", .str "TKN")])]),
               ("Sell", .obj [("Currency", .obj [("Symbol", .str "WBNB")])])]),
        ("Block", .obj [("Time", .str "2024-01-01T00:00:00Z")])]

/-- The C6 witness payload: two structurally identical trades. -/
def sampleMigrationPayload : Json :=
  .obj [("data", .obj [("EVM",
           .obj [("DEXTrades",
                  .arr [sampleMigrationTrade, sampleMigrationTrade])])])]

/-- Witness for the migration deduplication theorem: two identical trades
yield exactly one `dex_pairs` entry and `is_migrated = true`. -/
theorem migration_dedup_first_seen_witness :
    (pyContains sampleMigrationPayload "error" = .ok false ∧
     migrationTradesData sampleMigrationPayload =
       .ok (.arr [sampleMigrationTrade, sampleMigrationTrade]) ∧
     [sampleMigrationTrade, sampleMigrationTrade] ≠ [] ∧
     (∀ t ∈ [sampleMigrationTrade, sampleMigrationTrade],
        wfMigrationRow t = true)) ∧
    (get_token_migration_status_result sampleMigrationPayload "0xT" =
      .ok (.obj [("token_address", .str "0xT"),
                 ("is_migrated", .bool true),
                 ("status", .str "migrated_to_dex"),
                 ("migration_timestamp",
                  [sampleMigrationTrade, sampleMigrationTrade].foldl tsStepPure .null),
                 ("dex_pairs",
                  .arr ((firstSeenDedup
                    ([sampleMigrationTrade, sampleMigrationTrade].map pairOfTrade)).map
                      DexPair.toJson)),
                 ("total_dex_pairs",
                  .int (Int.ofNat (firstSeenDedup
                    ([sampleMigrationTrade, sampleMigrationTrade].map pairOfTrade)).length))]) ∧
     (firstSeenDedup
       ([sampleMigrationTrade, sampleMigrationTrade].map pairOfTrade)).Nodup) ∧
    firstSeenDedup ([sampleMigrationTrade, sampleMigrationTrade].map pairOfTrade) =
      [pairOfTrade sampleMigrationTrade] :=
  ⟨⟨rfl, rfl, by decide, by decide⟩,
    migration_dedup_first_seen sampleMigrationPayload "0xT"
      [sampleMigrationTrade, sampleMigrationTrade] rfl rfl (by decide) (by decide),
    by simp [firstSeenDedup_cons, firstSeenDedup_nil]⟩
